import Mathlib

/-!
Verification of the classroom payment service repository: a shallow embedding
of the payment workflow engine (src/payment_service/main.py), the notification
gateway (src/mailer_service/main.py) and the log sink (src/logger_service/main.py),
together with theorems settling the behavioural claims of the specification.

Modelling conventions:
* Python dicts (the in-memory stores) are insertion-ordered association lists
  with string keys; assignment `d[k] = v` replaces in place when the key exists
  and appends otherwise.
* `datetime.now()` values are naturals counting seconds; `timedelta(days=n)`
  adds `n * 86400`; `strftime "%Y-%m-%d"` is modelled as the day-number
  projection `t / 86400` rendered to a string (injective on calendar days).
* `uuid.uuid4()` is modelled as an injected identifier argument; freshness of
  a generated identifier is an explicit hypothesis where a claim needs it.
* Monetary amounts are opaque numeric payloads that the code only carries
  around (it never computes with them); they are embedded as `Int`.
* The outbound mailer call (`mailer.send_template_email`) can raise; the
  boolean oracle `mailerOk` is true when the call returns normally and false
  when it raises.  The payment-service helper functions catch every exception
  and turn it into a `False` return, exactly as in the source.
* Each handler returns an `Except Err` result (an `HTTPException` is the
  `.error` case carrying status code and detail), the post state, and the
  list of notification attempts it made.
-/

namespace ClassroomPayment

/-! ## Python dict as an association list -/

abbrev Store (α : Type) := List (String × α)

variable {α : Type}

def dictFind? (s : Store α) (k : String) : Option α :=
  match s with
  | [] => none
  | (k₁, v) :: rest => if k₁ = k then some v else dictFind? rest k

/-- Python dict assignment: replace in place when the key exists, append
otherwise (dicts preserve insertion order). -/
def dictInsert (s : Store α) (k : String) (v : α) : Store α :=
  match s with
  | [] => [(k, v)]
  | (k₁, v₁) :: rest => if k₁ = k then (k, v) :: rest else (k₁, v₁) :: dictInsert rest k v

@[simp] theorem dictFind?_nil (k : String) : dictFind? ([] : Store α) k = none := rfl

@[simp] theorem dictFind?_cons (k₁ k : String) (v : α) (rest : Store α) :
    dictFind? ((k₁, v) :: rest) k = if k₁ = k then some v else dictFind? rest k := rfl

theorem dictFind?_insert_self (s : Store α) (k : String) (v : α) :
    dictFind? (dictInsert s k v) k = some v := by
  induction s with
  | nil => simp [dictInsert]
  | cons hd tl ih =>
    obtain ⟨k₁, v₁⟩ := hd
    by_cases h : k₁ = k
    · simp [dictInsert, h]
    · simp [dictInsert, h, ih]

theorem dictFind?_insert_ne (s : Store α) (k k₂ : String) (v : α) (h : k₂ ≠ k) :
    dictFind? (dictInsert s k v) k₂ = dictFind? s k₂ := by
  induction s with
  | nil =>
    have : ¬ (k = k₂) := fun hc => h hc.symm
    simp [dictInsert, this]
  | cons hd tl ih =>
    obtain ⟨k₁, v₁⟩ := hd
    by_cases hk : k₁ = k
    · subst hk
      have h₁ : ¬ (k₁ = k₂) := fun hc => h hc.symm
      simp [dictInsert, h₁]
    · simp only [dictInsert, if_neg hk, dictFind?_cons]
      by_cases hk₂ : k₁ = k₂
      · simp [hk₂]
      · simp [hk₂, ih]

theorem dictInsert_of_find?_eq_some (s : Store α) (k : String) (v : α)
    (h : dictFind? s k = some v) : dictInsert s k v = s := by
  induction s with
  | nil => simp [dictFind?] at h
  | cons hd tl ih =>
    obtain ⟨k₁, v₁⟩ := hd
    by_cases hk : k₁ = k
    · subst hk
      simp [dictFind?] at h
      simp [dictInsert, h]
    · simp [dictFind?, hk] at h
      simp [dictInsert, hk, ih h]

theorem length_dictInsert_of_find?_eq_none (s : Store α) (k : String) (v : α)
    (h : dictFind? s k = none) : (dictInsert s k v).length = s.length + 1 := by
  induction s with
  | nil => simp [dictInsert]
  | cons hd tl ih =>
    obtain ⟨k₁, v₁⟩ := hd
    by_cases hk : k₁ = k
    · simp [dictFind?, hk] at h
    · simp [dictFind?, hk] at h
      simp [dictInsert, hk, ih h]

/-! ## Data model (src/payment_service/main.py, lines 21-77) -/

/-- HTTPException raised by a handler: status code plus detail string. -/
structure Err where
  status : Nat
  detail : String
deriving DecidableEq

/-- Pydantic model `PaymentService` (main.py:21). -/
structure PaymentService where
  service_id : String
  name : String
  description : String
  base_price : Int
deriving DecidableEq

/-- Pydantic model `PaymentCreate` (main.py:32). -/
structure PaymentCreate where
  service_id : String
  amount : Int
  user_id : String
  email : String
deriving DecidableEq

/-- Pydantic model `PaymentStatus` (main.py:38), the create/info/process
response shape.  `created_at` is returned as an isoformat string in the
source; it is kept as the underlying instant here. -/
structure PaymentStatus where
  payment_id : String
  status : String
  amount : Int
  created_at : Nat
deriving DecidableEq

/-- Pydantic model `Payment` (main.py:44), the stored payment entity. -/
structure Payment where
  payment_id : String
  service_id : String
  amount : Int
  user_id : String
  status : String
  created_at : Nat
  email : String
deriving DecidableEq

/-- The application record stored as a plain dict in
`payment_applications` (main.py:477). -/
structure PaymentApplication where
  application_id : String
  user_id : String
  service_id : String
  amount : Int
  reason : String
  status : String
  created_at : Nat
  email : String
deriving DecidableEq

/-- Response of the approve endpoint (main.py:580). -/
structure ApproveResponse where
  message : String
  payment_id : String
  status : String
deriving DecidableEq

/-- The three module-level mock-database dicts (main.py:75-77). -/
structure PState where
  payment_services : Store PaymentService
  payments : Store Payment
  payment_applications : Store PaymentApplication
deriving DecidableEq

/-! ## Notifications (the template_data dicts built in main.py:79-205) -/

/-- A value placed in a template_data dict: the source mixes strings and
numeric amounts. -/
inductive TValue where
  | s : String → TValue
  | n : Int → TValue
deriving DecidableEq

/-- One notification attempt handed to `mailer.send_template_email`. -/
structure EmailAttempt where
  templateId : String
  toEmail : String
  data : List (String × TValue)
deriving DecidableEq

/-- `timedelta(days=d)` added to an instant. -/
def addDays (t : Nat) (d : Nat) : Nat := t + d * 86400

/-- `strftime "%Y-%m-%d"`: the calendar-day projection of an instant,
rendered to a string. -/
def dateStr (t : Nat) : String := toString (t / 86400)

/-- `send_payment_created_email` (main.py:79): builds the payment_created
template_data dict and calls the mailer; returns whether the mailer call
returned normally (every exception is caught and turned into False). -/
def send_payment_created_email (mailerOk : Bool) (payment_id email service_name : String)
    (amount : Int) (due_date : String) : EmailAttempt × Bool :=
  (⟨"payment_created", email,
    [("payment_id", .s payment_id), ("service_name", .s service_name),
     ("amount", .n amount), ("due_date", .s due_date)]⟩, mailerOk)

/-- `send_payment_success_email` (main.py:97): transaction_id is added to
the dict only when supplied. -/
def send_payment_success_email (mailerOk : Bool) (payment_id email service_name : String)
    (amount : Int) (transaction_id : Option String) : EmailAttempt × Bool :=
  let base := [("payment_id", TValue.s payment_id), ("service_name", TValue.s service_name),
    ("amount", TValue.n amount)]
  let data := match transaction_id with
    | some t => base ++ [("transaction_id", TValue.s t)]
    | none => base
  (⟨"payment_success", email, data⟩, mailerOk)

/-- `send_payment_failed_email` (main.py:119). -/
def send_payment_failed_email (mailerOk : Bool) (payment_id email service_name : String)
    (amount : Int) (reason : String) : EmailAttempt × Bool :=
  (⟨"payment_failed", email,
    [("payment_id", .s payment_id), ("service_name", .s service_name),
     ("amount", .n amount), ("reason", .s reason)]⟩, mailerOk)

/-- `send_application_approved_email` (main.py:154). -/
def send_application_approved_email (mailerOk : Bool) (application_id email service_name : String)
    (amount : Int) (payment_id : String) : EmailAttempt × Bool :=
  (⟨"application_approved", email,
    [("application_id", .s application_id), ("service_name", .s service_name),
     ("amount", .n amount), ("payment_id", .s payment_id)]⟩, mailerOk)

/-! ## Payment workflow engine handlers -/

/-- Output of one handler invocation: the HTTP result, the post state, and
the notification attempts made (paired with whether the mailer call
returned normally). -/
structure OpOut (α : Type) where
  result : Except Err α
  state : PState
  attempts : List (EmailAttempt × Bool)

/-- The service-name resolution pattern repeated in the handlers
(`service_name = "Unknown Service"` overwritten when the id is a key,
e.g. main.py:279-281). -/
def resolveServiceName (st : PState) (service_id : String) : String :=
  match dictFind? st.payment_services service_id with
  | some s => s.name
  | none => "Unknown Service"

/-- `add_payment_service` (main.py:227-235): rejects a duplicate
service_id with HTTP 400 "Service ID already exists" (the Conflict
condition of the spec taxonomy), otherwise stores the definition. -/
def add_payment_service (st : PState) (service : PaymentService) :
    Except Err PaymentService × PState :=
  if (dictFind? st.payment_services service.service_id).isSome then
    (.error ⟨400, "Service ID already exists"⟩, st)
  else
    (.ok service,
     { st with payment_services := dictInsert st.payment_services service.service_id service })

/-- `create_payment` (main.py:262-322).  The handler stores the new pending
payment first, then resolves the service name; when the name resolves to the
fallback "Unknown Service" it raises HTTPException(404) inside its own
`try` block, so the blanket `except Exception` (main.py:316) catches that
exception and re-raises HTTPException(500, "Failed to create payment") -
with the just-stored payment left in the dict. -/
def create_payment (st : PState) (genId : String) (now : Nat) (mailerOk : Bool)
    (payment : PaymentCreate) : OpOut PaymentStatus :=
  let payment_id := genId
  let new_payment : Payment :=
    ⟨payment_id, payment.service_id, payment.amount, payment.user_id, "pending", now,
     payment.email⟩
  let st₁ := { st with payments := dictInsert st.payments payment_id new_payment }
  let service_name := resolveServiceName st payment.service_id
  if service_name = "Unknown Service" then
    ⟨.error ⟨500, "Failed to create payment"⟩, st₁, []⟩
  else
    let due_date := addDays now 30
    let attempt := send_payment_created_email mailerOk payment_id payment.email service_name
      payment.amount (dateStr due_date)
    ⟨.ok ⟨payment_id, "pending", payment.amount, now⟩, st₁, [attempt]⟩

/-- `update_payment` (main.py:339-381).  The status is overwritten
unconditionally.  In the source the two send calls (main.py:357 and
main.py:370) sit at function-body indentation, outside the
`if payment.status == "paid":` and `elif payment.status == "failed":`
blocks that only emit log lines, so BOTH the success and the failure email
are attempted on every update, whatever the new status. -/
def update_payment (st : PState) (payment_id : String) (new_status : String)
    (mailerOk : Bool) : OpOut Payment :=
  match dictFind? st.payments payment_id with
  | none => ⟨.error ⟨404, "Payment not found"⟩, st, []⟩
  | some payment =>
    let payment₁ := { payment with status := new_status }
    let st₁ := { st with payments := dictInsert st.payments payment_id payment₁ }
    let service_name := resolveServiceName st payment₁.service_id
    let a₁ := send_payment_success_email mailerOk payment_id payment₁.email service_name
      payment₁.amount none
    let a₂ := send_payment_failed_email mailerOk payment_id payment₁.email service_name
      payment₁.amount "Payment processing failed"
    ⟨.ok payment₁, st₁, [a₁, a₂]⟩

/-- `process_payment` (main.py:383-418): forces status "paid"; the used
transaction id is the supplied one unless it is absent or empty (Python
truthiness of `request.transaction_id`), in which case a fresh uuid is
generated. -/
def process_payment (st : PState) (payment_id : String) (reqTid : Option String)
    (genTid : String) (mailerOk : Bool) : OpOut PaymentStatus :=
  match dictFind? st.payments payment_id with
  | none => ⟨.error ⟨404, "Payment not found"⟩, st, []⟩
  | some payment =>
    let payment₁ := { payment with status := "paid" }
    let st₁ := { st with payments := dictInsert st.payments payment_id payment₁ }
    let service_name := resolveServiceName st payment₁.service_id
    let transaction_id := match reqTid with
      | some t => if t = "" then genTid else t
      | none => genTid
    let a := send_payment_success_email mailerOk payment_id payment₁.email service_name
      payment₁.amount (some transaction_id)
    ⟨.ok ⟨payment₁.payment_id, payment₁.status, payment₁.amount, payment₁.created_at⟩, st₁, [a]⟩

/-- `approve_application` (main.py:524-584): marks the application
approved, stores a fresh pending payment built from the application
fields, and attempts the application_approved and payment_created
emails. -/
def approve_application (st : PState) (application_id : String) (genId : String)
    (now : Nat) (mailerOk : Bool) : OpOut ApproveResponse :=
  match dictFind? st.payment_applications application_id with
  | none => ⟨.error ⟨404, "Application not found"⟩, st, []⟩
  | some application =>
    let application₁ := { application with status := "approved" }
    let apps₁ := dictInsert st.payment_applications application_id application₁
    let payment_id := genId
    let new_payment : Payment :=
      ⟨payment_id, application.service_id, application.amount, application.user_id,
       "pending", now, application.email⟩
    let payments₁ := dictInsert st.payments payment_id new_payment
    let st₁ := { st with payment_applications := apps₁, payments := payments₁ }
    let service_name := resolveServiceName st new_payment.service_id
    let a₁ := send_application_approved_email mailerOk application_id application.email
      service_name application.amount payment_id
    let due_date := addDays now 30
    let a₂ := send_payment_created_email mailerOk payment_id application.email service_name
      application.amount (dateStr due_date)
    ⟨.ok ⟨"Application approved and payment created", payment_id, "pending"⟩, st₁, [a₁, a₂]⟩

/-! ## Notification gateway (src/mailer_service/main.py) -/

/-- The fixed template registry loaded at startup (main.py:113-135); the
startup code also writes a `.html` and a `.txt` file for exactly these
seven ids (main.py:511-523), so these are the ids `render_template` can
resolve. -/
def defaultTemplateIds : List String :=
  ["payment_created", "payment_success", "payment_failed", "application_created",
   "application_approved", "application_rejected", "application_deleted"]

/-- Request model `TemplateEmailRequest` (main.py:566).  The source field
`to` is a Lean keyword, so it is named `to_emails` here (the name under
which the endpoint passes it to `send_email`). -/
structure TemplateEmailRequest where
  to_emails : List String
  template_id : String
  template_data : List (String × TValue)
  subject : Option String
  cc : Option (List String)
  bcc : Option (List String)
  sender : Option String
  source_service : String
deriving DecidableEq

/-- `EmailSender.send_email` (main.py:47-99) as seen by its caller: an
empty recipient list returns False before any transport work; otherwise
the SMTP interaction is attempted once and every transport exception is
caught and turned into False.  `transportOk` is the oracle for that
single attempt. -/
def send_email (transportOk : Bool) (to_emails : List String)
    (cc bcc : Option (List String)) : Bool :=
  if to_emails.isEmpty then false
  else transportOk

/-- Detail string the caller of /send-template receives when
`send_email` returns False: the HTTPException(500, "Failed to send template
email") raised at main.py:686 sits inside the same `try` block, so the
blanket `except Exception` at main.py:687 catches it and re-wraps it as
`"Error processing template: " + str(e)`.  The exact rendering of `str`
on an HTTPException is fixed by the installed Starlette version; what the
claims need is that it is one fixed string shared by the empty-recipient
and transport-failure paths, and distinct from the success response. -/
def sendFailureDetail : String :=
  "Error processing template: 500: Failed to send template email"

/-- `send_template_email_endpoint` (main.py:652-689).  Rendering an
unknown template id raises, which the endpoint turns into
HTTPException(500, "Error processing template: Template rendering error:
{id}.html"); with a known template the mail is attempted and a False
result from `send_email` becomes the (re-wrapped) 500 above. -/
def send_template_email_endpoint (transportOk : Bool) (request : TemplateEmailRequest) :
    Except Err String :=
  if request.template_id ∈ defaultTemplateIds then
    if send_email transportOk request.to_emails request.cc request.bcc then
      .ok "Template email sent successfully"
    else
      .error ⟨500, sendFailureDetail⟩
  else
    .error ⟨500, "Error processing template: Template rendering error: "
      ++ request.template_id ++ ".html"⟩

/-! ## Log sink (src/logger_service/main.py) -/

/-- Whether `needle` occurs as a contiguous run somewhere in the list. -/
def listContainsSub (needle : List Char) : List Char → Bool
  | [] => needle.isEmpty
  | c :: rest => needle.isPrefixOf (c :: rest) || listContainsSub needle rest

/-- Substring test, Python `needle in hay`. -/
def containsSub (hay needle : String) : Bool :=
  listContainsSub needle.toList hay.toList

/-- `get_logs` (main.py:131-167).  The per-service log file is a list of
already-stripped lines; a missing file yields the empty page with total 0.
A truthy `level` keeps the lines that contain it as a substring (Python
`level in log`, main.py:157); `start_time`/`end_time` are accepted but
never used.  The page is the slice `filtered[offset:offset+limit]` and the
reported total is the size of the whole filtered list. -/
def get_logs (logFiles : Store (List String)) (service_name : String)
    (level : Option String) (limit offset : Nat) : List String × Nat :=
  match dictFind? logFiles service_name with
  | none => ([], 0)
  | some logs =>
    let filtered := match level with
      | none => logs
      | some lv => if lv = "" then logs else logs.filter (fun line => containsSub line lv)
    let paginated := (filtered.drop offset).take limit
    (paginated, filtered.length)

/-- Split a character list at the first occurrence of `sep`, returning
the part before and the part after, or none when `sep` never occurs. -/
def breakAtSep (sep : List Char) : List Char → Option (List Char × List Char)
  | [] => if sep.isEmpty then some ([], []) else none
  | c :: rest =>
    if sep.isPrefixOf (c :: rest) then some ([], (c :: rest).drop sep.length)
    else
      match breakAtSep sep rest with
      | some (pre, post) => some (c :: pre, post)
      | none => none

/-- Modelled from the spec: the level field of a formatted log record.
The file handler format is `"%(asctime)s - %(levelname)s - %(message)s"`
(logger_service/main.py:70-72), so the level of a record is the second
" - "-separated field of its line; this is the field an exact level match
would compare.  Used only to state the exact-match reading of the
specification against the substring filter the code performs. -/
def lineLevel (line : String) : String :=
  match breakAtSep " - ".toList line.toList with
  | none => ""
  | some (_, rest) =>
    match breakAtSep " - ".toList rest with
    | none => String.mk rest
    | some (lvl, _) => String.mk lvl

/-! ## Claim theorems -/

/-! ### C1 -/

def c1State : PState := ⟨[], [], []⟩

def c1Request : PaymentCreate := ⟨"S1", 100, "u1", "u1@example.com"⟩

/-- Claim C1 (code bug, behaviour at the failing input): with service_id
"S1" absent from the service store, create_payment responds with HTTP 500
"Failed to create payment" - the HTTPException(404, "Service not found")
raised at main.py:285 is swallowed by the blanket `except Exception` of the
same handler - instead of NotFound, and the freshly stored pending payment
stays in the payment store under the generated id, contrary to the claim
that the store is unchanged. -/
theorem create_payment_unknown_service_behavior :
    (create_payment c1State "pid-1" 0 true c1Request).result =
      .error ⟨500, "Failed to create payment"⟩ ∧
    dictFind? (create_payment c1State "pid-1" 0 true c1Request).state.payments "pid-1" =
      some ⟨"pid-1", "S1", 100, "u1", "pending", 0, "u1@example.com"⟩ := by
  constructor <;> rfl

/-! ### C2 -/

def c2Payment : Payment := ⟨"p1", "S1", 100, "u1", "pending", 0, "user@example.com"⟩

def c2State : PState := ⟨[], [("p1", c2Payment)], []⟩

/-- Claim C2 (code bug, behaviour at the failing input): updating the
stored payment "p1" to the status "completed" - for which the claim says
no notification is issued - attempts BOTH a payment_success and a
payment_failed email, because the two send calls sit at function-body
indentation outside the `if`/`elif` blocks of main.py:354-376 and so run
on every update whatever the new status (the overwrite-and-return part of
the contract does hold, as the first conjunct shows). -/
theorem update_payment_notification_behavior :
    (update_payment c2State "p1" "completed" true).result =
      .ok { c2Payment with status := "completed" } ∧
    (update_payment c2State "p1" "completed" true).attempts.map (fun a => a.1.templateId) =
      ["payment_success", "payment_failed"] := by
  constructor <;> rfl

/-! ### C3 -/

/-- Claim C3: a second RegisterService call whose service_id is already a
key of the service store fails with the Conflict error of the taxonomy
(HTTP 400, "Service ID already exists") and leaves the whole service store
unchanged, so the originally stored definition is still the value under
that key. -/
theorem register_service_duplicate_conflict (st : PState) (service : PaymentService)
    (h : (dictFind? st.payment_services service.service_id).isSome = true) :
    (add_payment_service st service).1 = .error ⟨400, "Service ID already exists"⟩ ∧
    (add_payment_service st service).2 = st := by
  rw [add_payment_service, if_pos h]
  exact ⟨rfl, rfl⟩

def c3Service : PaymentService := ⟨"S1", "Standard Classroom Plan", "Basic booking", 100⟩

def c3Duplicate : PaymentService := ⟨"S1", "Premium Classroom Plan", "More equipment", 200⟩

def c3State : PState := ⟨[("S1", c3Service)], [], []⟩

/-- Witness for C3 at a concrete store holding "S1". -/
theorem register_service_duplicate_conflict_witness :
    (add_payment_service c3State c3Duplicate).1 =
      .error ⟨400, "Service ID already exists"⟩ ∧
    (add_payment_service c3State c3Duplicate).2 = c3State :=
  register_service_duplicate_conflict c3State c3Duplicate (by decide)

/-! ### C10 -/

/-- Claim C10: querying logs for a service for which no log store exists
does not fail: it returns the empty page with total 0 instead of a
NotFound error (the handler has no 404 path at all). -/
theorem get_logs_unknown_service_empty (logFiles : Store (List String))
    (service_name : String) (level : Option String) (limit offset : Nat)
    (h : dictFind? logFiles service_name = none) :
    get_logs logFiles service_name level limit offset = ([], 0) := by
  simp [get_logs, h]

/-- Witness for C10 on a store holding a log for another service only. -/
theorem get_logs_unknown_service_empty_witness :
    get_logs [("mailer-service", ["t0 - INFO - started"])] "payment-service"
      (some "ERROR") 100 0 = ([], 0) :=
  get_logs_unknown_service_empty [("mailer-service", ["t0 - INFO - started"])]
    "payment-service" (some "ERROR") 100 0 (by decide)

/-! ### C4 -/

def c4Service : PaymentService := ⟨"S1", "Unknown Service", "named like the fallback", 50⟩

def c4State : PState := ⟨[("S1", c4Service)], [], []⟩

def c4Request : PaymentCreate := ⟨"S1", 100, "u1", "u1@example.com"⟩

/-- Claim C4 counterexample: "S1" IS a key of the service store, yet
create_payment fails with HTTP 500, because the stored definition is
named exactly "Unknown Service", the literal the handler (main.py:279-285)
uses as its service-missing sentinel; so the claim that every request
with a registered service_id succeeds is false as stated. -/
theorem create_payment_known_service_failure :
    (dictFind? c4State.payment_services "S1").isSome = true ∧
    (create_payment c4State "pid-1" 0 true c4Request).result =
      .error ⟨500, "Failed to create payment"⟩ := by
  constructor <;> rfl

/-- Claim C4 (amended): when the service_id is a key of the service store
and the stored definition name is not the literal fallback string
"Unknown Service", create_payment succeeds: it returns the generated
payment_id (fresh by the uuid hypothesis, so not previously present in
the payment store), status "pending", created_at equal to the current
instant (hence not after it), stores the corresponding pending payment,
and the single payment_created notification carries a due date equal to
created_at plus 30 days. -/
theorem create_payment_known_named_service_ok (st : PState) (genId : String) (now : Nat)
    (mailerOk : Bool) (request : PaymentCreate) (svc : PaymentService)
    (hs : dictFind? st.payment_services request.service_id = some svc)
    (hname : svc.name ≠ "Unknown Service")
    (hfresh : dictFind? st.payments genId = none) :
    (create_payment st genId now mailerOk request).result =
      .ok ⟨genId, "pending", request.amount, now⟩ ∧
    dictFind? st.payments genId = none ∧
    dictFind? (create_payment st genId now mailerOk request).state.payments genId =
      some ⟨genId, request.service_id, request.amount, request.user_id, "pending", now,
        request.email⟩ ∧
    (create_payment st genId now mailerOk request).attempts.map (fun a => a.1.templateId) =
      ["payment_created"] ∧
    (create_payment st genId now mailerOk request).attempts.map
        (fun a => dictFind? a.1.data "due_date") =
      [some (.s (dateStr (addDays now 30)))] := by
  have hres : resolveServiceName st request.service_id = svc.name := by
    simp [resolveServiceName, hs]
  refine ⟨?_, hfresh, ?_, ?_, ?_⟩ <;>
    simp [create_payment, hres, hname, send_payment_created_email,
      dictFind?_insert_self, dictFind?]

def c4OkService : PaymentService := ⟨"S2", "Standard Classroom Plan", "Basic booking", 100⟩

def c4OkState : PState := ⟨[("S2", c4OkService)], [("p0", c2Payment)], []⟩

def c4OkRequest : PaymentCreate := ⟨"S2", 150, "u2", "u2@example.com"⟩

/-- Witness for the amended C4 at a concrete state and request. -/
theorem create_payment_known_named_service_ok_witness :
    (create_payment c4OkState "pid-9" 86400 true c4OkRequest).result =
      .ok ⟨"pid-9", "pending", 150, 86400⟩ ∧
    dictFind? c4OkState.payments "pid-9" = none ∧
    dictFind? (create_payment c4OkState "pid-9" 86400 true c4OkRequest).state.payments
      "pid-9" = some ⟨"pid-9", "S2", 150, "u2", "pending", 86400, "u2@example.com"⟩ ∧
    (create_payment c4OkState "pid-9" 86400 true c4OkRequest).attempts.map
      (fun a => a.1.templateId) = ["payment_created"] ∧
    (create_payment c4OkState "pid-9" 86400 true c4OkRequest).attempts.map
        (fun a => dictFind? a.1.data "due_date") =
      [some (.s (dateStr (addDays 86400 30)))] :=
  create_payment_known_named_service_ok c4OkState "pid-9" 86400 true c4OkRequest c4OkService
    (by decide) (by decide) (by decide)

/-! ### C5 -/

/-- Claim C5: for a stored payment id and a new status that is "paid" or
"failed", applying update_payment twice in succession leaves the whole
post state (in particular the stored payment entity) exactly as after
applying it once, and returns the same entity - repeated identical
updates are idempotent with respect to the store. -/
theorem update_payment_idempotent (st : PState) (pid s : String) (m₁ m₂ : Bool)
    (p : Payment) (hp : dictFind? st.payments pid = some p)
    (hs : s = "paid" ∨ s = "failed") :
    (update_payment (update_payment st pid s m₁).state pid s m₂).state =
      (update_payment st pid s m₁).state ∧
    (update_payment (update_payment st pid s m₁).state pid s m₂).result =
      (update_payment st pid s m₁).result := by
  clear hs
  have h₁ : dictFind? (dictInsert st.payments pid { p with status := s }) pid =
      some { p with status := s } := dictFind?_insert_self _ _ _
  have h₂ : dictInsert (dictInsert st.payments pid { p with status := s }) pid
      { p with status := s } = dictInsert st.payments pid { p with status := s } :=
    dictInsert_of_find?_eq_some _ _ _ h₁
  constructor <;> simp [update_payment, hp, h₁, h₂]

def c5State : PState := ⟨[], [("p1", c2Payment)], []⟩

/-- Witness for C5: updating "p1" to "paid" twice equals updating once. -/
theorem update_payment_idempotent_witness :
    (update_payment (update_payment c5State "p1" "paid" true).state "p1" "paid" true).state =
      (update_payment c5State "p1" "paid" true).state ∧
    (update_payment (update_payment c5State "p1" "paid" true).state "p1" "paid" true).result =
      (update_payment c5State "p1" "paid" true).result :=
  update_payment_idempotent c5State "p1" "paid" true true c2Payment (by decide) (Or.inl rfl)

/-! ### C6 -/

/-- Claim C6: approving a stored application (with a fresh generated
payment id, per the uuid model) sets exactly that application to status
"approved" and adds exactly one new pending payment whose amount, email
and service_id equal the application fields; every other payment and
application entry is untouched and the service store is unchanged. -/
theorem approve_application_ok (st : PState) (aid genId : String) (now : Nat)
    (mailerOk : Bool) (app : PaymentApplication)
    (ha : dictFind? st.payment_applications aid = some app)
    (hfresh : dictFind? st.payments genId = none) :
    dictFind? (approve_application st aid genId now mailerOk).state.payment_applications
      aid = some { app with status := "approved" } ∧
    dictFind? (approve_application st aid genId now mailerOk).state.payments genId =
      some ⟨genId, app.service_id, app.amount, app.user_id, "pending", now, app.email⟩ ∧
    (approve_application st aid genId now mailerOk).state.payments.length =
      st.payments.length + 1 ∧
    (∀ k, k ≠ genId →
      dictFind? (approve_application st aid genId now mailerOk).state.payments k =
        dictFind? st.payments k) ∧
    (∀ k, k ≠ aid →
      dictFind? (approve_application st aid genId now mailerOk).state.payment_applications
        k = dictFind? st.payment_applications k) ∧
    (approve_application st aid genId now mailerOk).state.payment_services =
      st.payment_services := by
  refine ⟨?_, ?_, ?_, ?_, ?_, ?_⟩ <;>
    simp [approve_application, ha, dictFind?_insert_self,
      length_dictInsert_of_find?_eq_none st.payments genId _ hfresh]
  · intro k hk
    exact dictFind?_insert_ne _ _ _ _ hk
  · intro k hk
    exact dictFind?_insert_ne _ _ _ _ hk

def c6App : PaymentApplication :=
  ⟨"a1", "u1", "S1", 450, "classroom booking", "pending", 0, "u1@example.com"⟩

def c6State : PState := ⟨[("S1", c3Service)], [("p0", c2Payment)], [("a1", c6App)]⟩

/-- Witness for C6 at a concrete application and fresh payment id. -/
theorem approve_application_ok_witness :
    dictFind? (approve_application c6State "a1" "pid-7" 86400 true).state.payment_applications
      "a1" = some { c6App with status := "approved" } ∧
    dictFind? (approve_application c6State "a1" "pid-7" 86400 true).state.payments "pid-7" =
      some ⟨"pid-7", "S1", 450, "u1", "pending", 86400, "u1@example.com"⟩ ∧
    (approve_application c6State "a1" "pid-7" 86400 true).state.payments.length =
      c6State.payments.length + 1 ∧
    (∀ k, k ≠ "pid-7" →
      dictFind? (approve_application c6State "a1" "pid-7" 86400 true).state.payments k =
        dictFind? c6State.payments k) ∧
    (∀ k, k ≠ "a1" →
      dictFind? (approve_application c6State "a1" "pid-7" 86400 true).state.payment_applications
        k = dictFind? c6State.payment_applications k) ∧
    (approve_application c6State "a1" "pid-7" 86400 true).state.payment_services =
      c6State.payment_services :=
  approve_application_ok c6State "a1" "pid-7" 86400 true c6App (by decide) (by decide)

/-! ### C7 -/

/-- Claim C7: when the downstream notification call fails (mailerOk =
false models the mailer raising an arbitrary exception, which the helper
catches), process_payment still returns the same success result and the
same post state as when the call succeeds - the status mutation to "paid"
is committed and not rolled back - and likewise update_payment still
returns its success result with the overwritten status committed, for
either mailer outcome. -/
theorem notification_failure_harmless (st : PState) (pid : String)
    (reqTid : Option String) (genTid : String) (p : Payment)
    (hp : dictFind? st.payments pid = some p) :
    ((process_payment st pid reqTid genTid false).result =
        (process_payment st pid reqTid genTid true).result ∧
      (process_payment st pid reqTid genTid false).state =
        (process_payment st pid reqTid genTid true).state ∧
      (process_payment st pid reqTid genTid false).result =
        .ok ⟨p.payment_id, "paid", p.amount, p.created_at⟩ ∧
      dictFind? (process_payment st pid reqTid genTid false).state.payments pid =
        some { p with status := "paid" }) ∧
    (∀ ns mOk,
      (update_payment st pid ns mOk).result = .ok { p with status := ns } ∧
      (update_payment st pid ns mOk).state = (update_payment st pid ns true).state ∧
      dictFind? (update_payment st pid ns mOk).state.payments pid =
        some { p with status := ns }) := by
  refine ⟨⟨?_, ?_, ?_, ?_⟩, fun ns mOk => ⟨?_, ?_, ?_⟩⟩ <;>
    simp [process_payment, update_payment, hp, dictFind?_insert_self]

/-- Witness for C7: a concrete stored payment processed with a failing
mailer. -/
theorem notification_failure_harmless_witness :
    ((process_payment c5State "p1" (some "tx-1") "gen-tx" false).result =
        (process_payment c5State "p1" (some "tx-1") "gen-tx" true).result ∧
      (process_payment c5State "p1" (some "tx-1") "gen-tx" false).state =
        (process_payment c5State "p1" (some "tx-1") "gen-tx" true).state ∧
      (process_payment c5State "p1" (some "tx-1") "gen-tx" false).result =
        .ok ⟨c2Payment.payment_id, "paid", c2Payment.amount, c2Payment.created_at⟩ ∧
      dictFind? (process_payment c5State "p1" (some "tx-1") "gen-tx" false).state.payments
        "p1" = some { c2Payment with status := "paid" }) ∧
    (∀ ns mOk,
      (update_payment c5State "p1" ns mOk).result = .ok { c2Payment with status := ns } ∧
      (update_payment c5State "p1" ns mOk).state =
        (update_payment c5State "p1" ns true).state ∧
      dictFind? (update_payment c5State "p1" ns mOk).state.payments "p1" =
        some { c2Payment with status := ns }) :=
  notification_failure_harmless c5State "p1" (some "tx-1") "gen-tx" c2Payment (by decide)

/-! ### C8 -/

def c8RequestEmpty : TemplateEmailRequest :=
  ⟨[], "payment_success", [("payment_id", .s "p1")], none, none, none, none,
   "payment-service"⟩

def c8RequestTransport : TemplateEmailRequest :=
  ⟨["user@example.com"], "payment_success", [("payment_id", .s "p1")], none, none, none,
   none, "payment-service"⟩

/-- Claim C8 counterexample: a request with an empty recipient list (and a
healthy transport) and a request with a recipient but a failing transport
produce the IDENTICAL error response, so the NoRecipient and
TransportError failure kinds are not distinguishable to the caller and
the claim is false as stated. -/
theorem send_template_failures_indistinguishable :
    send_template_email_endpoint true c8RequestEmpty =
      send_template_email_endpoint false c8RequestTransport ∧
    send_template_email_endpoint true c8RequestEmpty = .error ⟨500, sendFailureDetail⟩ := by
  constructor <;> rfl

/-- Claim C8 (amended): a templated send fails with HTTP 500 and detail
"Error processing template: Template rendering error: {id}.html" when the
template id is not in the registry, while with a registered template it
fails with one fixed 500 response - the re-wrapped "Failed to send
template email" - both when the recipient list is empty and when the
single transport attempt fails (succeeding only when a recipient exists
and the transport works); hence the unknown-template failure is
distinguishable from the other two, which are indistinguishable from each
other. -/
theorem send_template_email_failure_modes (transportOk : Bool)
    (request : TemplateEmailRequest) :
    (request.template_id ∉ defaultTemplateIds →
      send_template_email_endpoint transportOk request =
        .error ⟨500, "Error processing template: Template rendering error: "
          ++ request.template_id ++ ".html"⟩) ∧
    (request.template_id ∈ defaultTemplateIds → request.to_emails = [] →
      send_template_email_endpoint transportOk request = .error ⟨500, sendFailureDetail⟩) ∧
    (request.template_id ∈ defaultTemplateIds → request.to_emails ≠ [] →
      send_template_email_endpoint transportOk request =
        if transportOk then .ok "Template email sent successfully"
        else .error ⟨500, sendFailureDetail⟩) := by
  refine ⟨fun hmem => ?_, fun hmem hempty => ?_, fun hmem hne => ?_⟩
  · simp [send_template_email_endpoint, hmem]
  · simp [send_template_email_endpoint, hmem, send_email, hempty]
  · have : request.to_emails.isEmpty = false := by
      cases h : request.to_emails with
      | nil => exact absurd h hne
      | cons a l => rfl
    cases transportOk <;>
      simp [send_template_email_endpoint, hmem, send_email, this]

def c8RequestUnknown : TemplateEmailRequest :=
  ⟨["user@example.com"], "no_such_template", [], none, none, none, none,
   "payment-service"⟩

/-- Witness for the amended C8: all three failure branches at concrete
requests. -/
theorem send_template_email_failure_modes_witness :
    (send_template_email_endpoint true c8RequestUnknown =
      .error ⟨500, "Error processing template: Template rendering error: "
        ++ "no_such_template" ++ ".html"⟩) ∧
    (send_template_email_endpoint true c8RequestEmpty =
      .error ⟨500, sendFailureDetail⟩) ∧
    (send_template_email_endpoint false c8RequestTransport =
      if false then .ok "Template email sent successfully"
      else .error ⟨500, sendFailureDetail⟩) :=
  ⟨(send_template_email_failure_modes true c8RequestUnknown).1 (by decide),
   (send_template_email_failure_modes true c8RequestEmpty).2.1 (by decide) rfl,
   (send_template_email_failure_modes false c8RequestTransport).2.2 (by decide)
     (by decide)⟩

/-! ### C9 -/

def c9Lines : List String :=
  ["t1 - INFO - ERROR count reached", "t2 - ERROR - boom"]

def c9Files : Store (List String) := [("payment-service", c9Lines)]

/-- Claim C9 counterexample: querying the stored log of "payment-service"
with level "ERROR" returns BOTH lines, because the code keeps a line when
the level string occurs anywhere in it as a substring
(`level in log`, logger_service/main.py:157); the first returned record
has level field "INFO", which an exact level match would have dropped, so
the exact-match part of the claim is false as stated. -/
theorem get_logs_not_exact_level_match :
    (get_logs c9Files "payment-service" (some "ERROR") 100 0).1 = c9Lines ∧
    lineLevel "t1 - INFO - ERROR count reached" = "INFO" ∧
    c9Lines.filter (fun line => lineLevel line == "ERROR") = ["t2 - ERROR - boom"] := by
  refine ⟨?_, ?_, ?_⟩ <;> rfl

/-- Claim C9 (amended): for a service with a stored log and a non-empty
level filter, the returned page is the contiguous slice
[offset, offset+limit) of the filtered records, kept in file order (the
page is a sublist of the stored lines, never re-sorted); a record is kept
exactly when the level string occurs in the line as a substring (not by
exact level-field match); and the returned total is the size of the whole
filtered set, not the page size. -/
theorem get_logs_page_spec (logFiles : Store (List String)) (svc lv : String)
    (lines : List String) (limit offset : Nat)
    (h : dictFind? logFiles svc = some lines) (hlv : lv ≠ "") :
    (get_logs logFiles svc (some lv) limit offset).1 =
      ((lines.filter (fun line => containsSub line lv)).drop offset).take limit ∧
    (get_logs logFiles svc (some lv) limit offset).2 =
      (lines.filter (fun line => containsSub line lv)).length ∧
    List.Sublist (get_logs logFiles svc (some lv) limit offset).1 lines := by
  have hpage : (get_logs logFiles svc (some lv) limit offset).1 =
      ((lines.filter (fun line => containsSub line lv)).drop offset).take limit := by
    simp [get_logs, h, hlv]
  refine ⟨hpage, by simp [get_logs, h, hlv], ?_⟩
  rw [hpage]
  exact ((List.take_sublist _ _).trans (List.drop_sublist _ _)).trans
    (List.filter_sublist _)

/-- Witness for the amended C9 at the concrete store, with offset 1 and
limit 1 exercising the pagination. -/
theorem get_logs_page_spec_witness :
    (get_logs c9Files "payment-service" (some "ERROR") 1 1).1 =
      ((c9Lines.filter (fun line => containsSub line "ERROR")).drop 1).take 1 ∧
    (get_logs c9Files "payment-service" (some "ERROR") 1 1).2 =
      (c9Lines.filter (fun line => containsSub line "ERROR")).length ∧
    List.Sublist (get_logs c9Files "payment-service" (some "ERROR") 1 1).1 c9Lines :=
  get_logs_page_spec c9Files "payment-service" "ERROR" c9Lines 1 1 (by decide) (by decide)

end ClassroomPayment
